import Mathlib

/-!
Verification development for the mussh SSH multiplexer.

The definitions below are a shallow embedding of the Rust sources:
  - src/src/config.rs       (configuration record types, FileDrain)
  - src/src/subcmd/run.rs   (selection resolution, alias substitution,
                             multiplexing, local execution, duration formatting)
  - src/src/util.rs         (pad_left)
  - src/src/main.rs         (process exit code)
  - src/src/logging.rs      (FileDrain log sink)

Rust `IndexSet<String>` / `IndexMap<String, V>` values are modelled as
insertion-ordered duplicate-free lists / association lists; `String` stays
`String`, numeric types are `Nat` / `Int`, `Fallible<T>` is `Except`.
-/

/-- Hosts structure from src/src/config.rs: a named list of member host names
(one hostlist group). -/
structure Hosts where
  hostnames : List String
deriving DecidableEq, Repr

/-- Alias structure from src/src/config.rs: `command` substitutes in for the
command named `aliasfor` on the declaring host. -/
structure CmdAlias where
  command : String
  aliasfor : String
deriving DecidableEq, Repr

/-- Host structure from src/src/config.rs. The field `aliasList` models the
source field `alias: Option<Vec<Alias>>` (the Rust name is a Lean keyword). -/
structure Host where
  hostname : String
  pem : Option String
  port : Option Nat
  username : String
  aliasList : Option (List CmdAlias)
deriving DecidableEq, Repr

/-- Command structure from src/src/config.rs: a named shell command string. -/
structure Command where
  command : String
deriving DecidableEq, Repr

/-- Modelled from the spec: the `Mussh` configuration record used by
src/src/subcmd/run.rs (`crate::config::Mussh`) whose declaration is not under
src/, only its callers. Its shape is fixed by the TOML schema of spec section 6
and by the `MusshToml` record in src/src/config.rs: a map of hostlist groups,
a map of hosts and a map of commands, each keyed by name. The getset getters
`hostlist`, `hosts` and `cmd` are plain field accessors. -/
structure Mussh where
  hostlist : List (String × Hosts)
  hosts : List (String × Host)
  cmd : List (String × Command)
deriving DecidableEq, Repr

/-- Insertion into an insertion-ordered set (IndexSet semantics: a re-inserted
element keeps its first position). -/
def idxInsert (s : List String) (x : String) : List String :=
  if x ∈ s then s else s ++ [x]

/-- IndexSet::from_iter - deduplicate, first occurrence wins for ordering. -/
def idxFromIter (l : List String) : List String :=
  l.foldl idxInsert []

/-- IndexSet::union - elements of the first set, then the elements of the
second set that are not in the first, in order. -/
def idxUnion (s t : List String) : List String :=
  s ++ t.filter (fun x => decide (x ∉ s))

/-- List concatenation of the images of a function (Rust flat_map). -/
def flatMapL (f : α → List β) : List α → List β
  | [] => []
  | a :: as => f a ++ flatMapL f as

/-- Function `hostnames` of src/src/subcmd/run.rs lines 57-62: look a token up
in the hostlist map; a group token yields the members, any other token yields
the empty list (there is no fallback to the token itself). -/
def hostnames (config : Mussh) (host : String) : List String :=
  match config.hostlist.lookup host with
  | some hosts => hosts.hostnames
  | none => []

/-- Function `unwanted_host` of src/src/subcmd/run.rs lines 64-70: a token with
a leading excl mark denotes an exclusion of the remainder of the token
(starts_with followed by split_at(1); the mark is one byte, so splitting off
the first byte is splitting off the first character). -/
def unwanted_host (host : String) : Option String :=
  match host.data with
  | [] => none
  | c :: rest => if c = '!' then some (String.mk rest) else none

/-- HostType enum of src/src/subcmd/run.rs: the primary selection or the
pre (sync-cohort) selection. -/
inductive HostType
  | HOST
  | PRE
deriving DecidableEq, Repr

/-- Run structure of src/src/subcmd/run.rs lines 35-55 (logger fields dropped:
they carry no data relevant to the claims). -/
structure Run where
  commands : List String
  hosts : List String
  group_cmds : List String
  group_pre : List String
  group : List String
  sync : Bool
  config : Mussh
  dry_run : Bool
deriving Repr

/-- Token list selected by `Run::requested` and friends for a host type:
the hosts flag for HOST, the group-pre flag for PRE. -/
def Run.hostTokens (r : Run) (ht : HostType) : List String :=
  match ht with
  | .HOST => r.hosts
  | .PRE => r.group_pre

/-- Run::expanded (src/src/subcmd/run.rs lines 122-129): flat_map the tokens
through `hostnames` and collect into an IndexSet. -/
def Run.expanded (r : Run) (ht : HostType) : List String :=
  idxFromIter (flatMapL (hostnames r.config) (r.hostTokens ht))

/-- Run::unwanted (lines 131-138): the stripped exclusion tokens. -/
def Run.unwanted (r : Run) (ht : HostType) : List String :=
  idxFromIter ((r.hostTokens ht).filterMap unwanted_host)

/-- Run::configured (lines 140-147): the keys of the hostlist map - the names
of the configured hostlist groups (both host types read the same map). -/
def Run.configured (r : Run) : List String :=
  idxFromIter (r.config.hostlist.map Prod.fst)

/-- Run::target_hosts (lines 181-197): expand, drop the unwanted hosts
(IndexSet::retain), then intersect with `configured` in expansion order. -/
def Run.target_hosts (r : Run) : List String :=
  ((r.expanded .HOST).filter (fun x => decide (x ∉ r.unwanted .HOST))).filter
    (fun x => decide (x ∈ r.configured))

/-- Run::pre_hosts (lines 163-179): the same pipeline over the pre selection. -/
def Run.pre_hosts (r : Run) : List String :=
  ((r.expanded .PRE).filter (fun x => decide (x ∉ r.unwanted .PRE))).filter
    (fun x => decide (x ∈ r.configured))

/-- Warned set of Run::unconfigured (lines 149-161) as called from
Run::target_hosts: the difference between the retained expansion and the
configured set, in expansion order. -/
def Run.warned_hosts (r : Run) : List String :=
  ((r.expanded .HOST).filter (fun x => decide (x ∉ r.unwanted .HOST))).filter
    (fun x => decide (x ∉ r.configured))

/-- Warning record produced by `display_set` through `as_set` inside
Run::unconfigured: a single warning naming the set, emitted only when the set
is nonempty. -/
def Run.unconfigured_warning (r : Run) : Option (List String) :=
  if r.warned_hosts = [] then none else some r.warned_hosts

/-- Run::target_cmds (lines 199-226): requested command names intersected with
the configured ones, each paired with its configured Command. -/
def Run.target_cmds (r : Run) : List (String × Command) :=
  let requested := idxFromIter r.commands
  let configuredCmds := idxFromIter (r.config.cmd.map Prod.fst)
  (requested.filter (fun c => decide (c ∈ configuredCmds))).filterMap
    (fun cmd_name => (r.config.cmd.lookup cmd_name).map (fun c => (cmd_name, c)))

/-- Loop body of `setup_alias` (src/src/subcmd/run.rs lines 438-448): walk the
alias vector in declaration order; on a matching alias whose command resolves,
take that command string and break; a matching alias whose command does not
resolve is skipped and the walk continues. -/
def aliasLoop (config : Mussh) (cmd0 : String) (cmd_name : String) :
    List CmdAlias → String
  | [] => cmd0
  | a :: rest =>
    if a.aliasfor = cmd_name then
      match config.cmd.lookup a.command with
      | some int_command => int_command.command
      | none => aliasLoop config cmd0 cmd_name rest
    else aliasLoop config cmd0 cmd_name rest

/-- Function `setup_alias` of src/src/subcmd/run.rs lines 430-453. -/
def setup_alias (config : Mussh) (command : Command) (cmd_name : String)
    (target_host : Host) : String × String :=
  (cmd_name,
    match target_host.aliasList with
    | some alias_vec => aliasLoop config command.command cmd_name alias_vec
    | none => command.command)

/-- Run::actual_cmds (lines 228-237): alias substitution per command. -/
def Run.actual_cmds (r : Run) (target_host : Host)
    (expected_cmds : List (String × Command)) : List (String × String) :=
  expected_cmds.map (fun p => setup_alias r.config p.2 p.1 target_host)

/-- Run::matched_hosts computation inside Run::multiplex (src/src/subcmd/run.rs
lines 337-345): the union of target and pre hosts (target hosts first, then
the pre hosts not among them), keeping those present in the hosts map. -/
def Run.matched_hosts (r : Run) : List (String × Host) :=
  (idxUnion r.target_hosts r.pre_hosts).filterMap
    (fun hostname => (r.config.hosts.lookup hostname).map (fun h => (hostname, h)))

/-- Scheduling event of Run::multiplex: spawning the worker thread of a host,
or a blocking rx.recv() that consumes one finished worker batch. -/
inductive MuxEvent
  | spawn (host : String)
  | recvWait
deriving DecidableEq, Repr

/-- Scheduling trace of Run::multiplex (lines 328-427) on the main thread:
for each matched host, spawn a worker (unless dry_run) and, when sync is set,
immediately wait for one batch; afterwards, when neither dry_run nor sync,
wait for as many batches as target_hosts has elements. A worker may begin
executing its commands as soon as its spawn event occurs. -/
def Run.multiplexSchedule (r : Run) : List MuxEvent :=
  flatMapL
    (fun p =>
      (if r.dry_run then [] else [MuxEvent.spawn p.1]) ++
        (if r.sync then [MuxEvent.recvWait] else []))
    r.matched_hosts ++
  (if !r.dry_run && !r.sync then
      List.replicate r.target_hosts.length MuxEvent.recvWait
    else [])

/-- Count of recv events strictly before position i of a schedule. -/
def countRecvBefore (sched : List MuxEvent) (i : Nat) : Nat :=
  ((sched.take i).filter (fun e => decide (e = MuxEvent.recvWait))).length

/-- Check of one schedule event against the sync-cohort barrier: spawning a
host outside the cohort is bad when fewer recv events than cohort members
precede it (each recv yields at most one finished cohort batch, so then some
cohort host cannot yet have produced its terminal outcome). -/
def badSpawn (cohort : List String) (priorRecvs : Nat) : MuxEvent → Bool
  | .spawn hn => !cohort.contains hn && priorRecvs < cohort.length
  | .recvWait => false

/-- Necessary condition for the sync-cohort barrier on a schedule: no event
spawns a non-cohort host before enough recv events have completed to cover
every cohort host. A schedule violating this necessarily lets a non-cohort
worker start while some cohort host has produced no terminal outcome. -/
def syncCohortPriority (sched : List MuxEvent) (cohort : List String) : Prop :=
  ∀ i : Fin sched.length,
    badSpawn cohort (countRecvBefore sched i.val) (sched.get i) = false

instance (sched : List MuxEvent) (cohort : List String) :
    Decidable (syncCohortPriority sched cohort) := by
  unfold syncCohortPriority
  infer_instance

/-- Worker batch type: what `execute` sends back over the channel, an ordered
map from command name to (hostname, per-command result). -/
abbrev Batch : Type := List (String × String × Except String Unit)

/-- Decidable equality for Except values, used to evaluate concrete runs. -/
instance exceptDecEq {e a : Type} [DecidableEq e] [DecidableEq a] :
    DecidableEq (Except e a) := fun x y =>
  match x, y with
  | .ok u, .ok v =>
    if h : u = v then isTrue (by rw [h]) else isFalse (fun k => h (Except.ok.inj k))
  | .error u, .error v =>
    if h : u = v then isTrue (by rw [h]) else isFalse (fun k => h (Except.error.inj k))
  | .ok _, .error _ => isFalse Except.noConfusion
  | .error _, .ok _ => isFalse Except.noConfusion

/-- Success test of a single (cmd_name, (hostname, result)) entry. -/
def outcomeOk (t : String × String × Except String Unit) : Bool :=
  match t.2.2 with
  | .ok _ => true
  | .error _ => false

/-- Result-processing loop body of Run::multiplex (lines 384-394 and 407-417):
each failed entry of a received batch is logged to stderr; nothing else
happens, in particular no error value is constructed. -/
def process_batch (results : Batch) : List String :=
  results.filterMap (fun t =>
    match t.2.2 with
    | .error e => some ("Failed to run " ++ t.1 ++ " on " ++ t.2.1 ++ ": " ++ e)
    | .ok _ => none)

/-- Hosts whose workers are spawned by Run::multiplex (no spawns on dry_run). -/
def Run.spawnedHosts (r : Run) : List String :=
  if r.dry_run then [] else r.matched_hosts.map Prod.fst

/-- Hosts whose batches the main thread receives and processes, under the
linearization that batches arrive in spawn order: every spawned host in sync
mode, and the first target_hosts.length spawned hosts in async mode (the
count variable of line 332 is taken before pre hosts are merged in). -/
def Run.processedHosts (r : Run) : List String :=
  if r.dry_run then []
  else if r.sync then r.spawnedHosts
  else r.spawnedHosts.take r.target_hosts.length

/-- Outcomes produced by the run: the entries of the processed batches, where
`batch` maps each host to the batch its worker sends back. -/
def Run.producedOutcomes (r : Run)
    (batch : String → Batch) : Batch :=
  flatMapL batch (r.processedHosts)

/-- Error lines logged by the result-processing loops of Run::multiplex. -/
def Run.errorLog (r : Run) (batch : String → Batch) : List String :=
  flatMapL (fun hn => process_batch (batch hn)) (r.processedHosts)

/-- Error kind enum of src/src/error.rs (MusshErrKind), with the clap variant
split by what main.rs inspects (help, version, other). -/
inductive MusshErrKind
  | clapHelp (msg : String)
  | clapVersion
  | clapOther
  | io
  | libmussh
  | str (s : String)
deriving DecidableEq, Repr

/-- Return value and stderr log of Run::multiplex (lines 328-427): per-outcome
failures are only logged; the function reaches line 426 and returns Ok(())
whatever the outcomes were (logger creation IO, the only fallible step, is
modelled as succeeding). -/
def Run.multiplex (r : Run) (batch : String → Batch) :
    List String × Except MusshErrKind Unit :=
  (r.errorLog batch, Except.ok ())

/-- Exit-code computation of main (src/src/main.rs lines 193-228): 0 on Ok,
0 when the error is clap help or version display, 1 otherwise. -/
def exit_code : Except MusshErrKind Unit → Nat
  | .ok _ => 0
  | .error (.clapHelp _) => 0
  | .error .clapVersion => 0
  | .error _ => 1

/-- Process exit code of a completed run: main applied to what multiplex
returns. -/
def run_exit (r : Run) (batch : String → Batch) : Nat :=
  exit_code (r.multiplex batch).2

/-- Error kind enum used by src/src/subcmd/run.rs (crate::error::MusshErrorKind;
only the variants the cited code constructs are modelled). -/
inductive MusshErrorKind
  | ShellNotFound
  | SshAuthentication
  | SshSession
  | msg (s : String)
deriving DecidableEq, Repr

/-- Behaviour of the spawned local child process, as observed by
execute_on_localhost: the spawn itself may fail, waiting may fail, or the
child exits with captured stdout lines and an exit status. -/
inductive SpawnOutcome
  | spawnFailed
  | waitFailed (lines : List String)
  | exited (lines : List String) (status : Int)
deriving DecidableEq, Repr

/-- Observable behaviour of execute_on_localhost: the lines written to the
per-host file logger, whether a success line was logged to stdout, whether a
failure line was logged to stderr, and the returned Fallible value (the
per-command outcome). -/
structure LocalExec where
  fileLog : List String
  okLogged : Bool
  errLogged : Bool
  result : Except MusshErrorKind Unit
deriving Repr

/-- Function execute_on_localhost of src/src/subcmd/run.rs lines 496-546,
parameterized by the SHELL environment variable and the child behaviour.
With SHELL unset it returns Err(ShellNotFound); with SHELL set it returns
Ok(()) on every path except a failing child.wait(): a failed spawn falls
through silently and a nonzero exit status is logged to stderr but the
function still returns Ok(()). -/
def execute_on_localhost (shellVar : Option String) (sp : SpawnOutcome) :
    LocalExec :=
  match shellVar with
  | none => ⟨[], false, false, Except.error MusshErrorKind.ShellNotFound⟩
  | some _ =>
    match sp with
    | .spawnFailed => ⟨[], false, false, Except.ok ()⟩
    | .waitFailed lines =>
      ⟨lines, false, false, Except.error (MusshErrorKind.msg "io")⟩
    | .exited lines status =>
      if status = 0 then ⟨lines, true, false, Except.ok ()⟩
      else ⟨lines, false, true, Except.ok ()⟩

/-- FileDrain::log of src/src/logging.rs lines 96-110 (identical in
src/src/config.rs lines 461-475). The drain declares Err = Never, so the type
alone admits no error value; the body tolerates a failing try_clone (record
dropped) and a failing writeln (record dropped) and returns Ok(()) on every
path. The first parameter says whether File::try_clone succeeds, the second
whether the writeln succeeds; ts is the string chrono renders for Utc::now()
in RFC 3339 form, msg the record message. The returned pair is the optional
text appended to the file and the drain result; Empty embeds slog::Never. -/
def FileDrain.log (tryCloneOk : Bool) (writeOk : Bool) (ts msg : String) :
    Option String × Except Empty Unit :=
  (if tryCloneOk && writeOk then some (ts ++ ": " ++ msg ++ "\n") else none,
    Except.ok ())

/-- Loop of pad_left (src/src/util.rs lines 4-14): starting from the length of
the input, push one space and bump the counter while it is below max. -/
def pad_left_go (len max : Nat) (res : List Char) : List Char :=
  if len < max then pad_left_go (len + 1) max (res ++ [' ']) else res
termination_by max - len

/-- Function pad_left of src/src/util.rs lines 4-14 over the characters of the
input string (String::len counts bytes in Rust; on ASCII input the two
coincide, and the claims quantify over characters). Note that the result is
built from an empty accumulator: the input itself is never appended. -/
def pad_left (s : List Char) (max : Nat) : List Char :=
  pad_left_go s.length max []

/-- Duration in the sense of std::time::Duration, as a count of nanoseconds. -/
structure Duration where
  nanos : Nat
deriving DecidableEq, Repr

/-- Duration::as_secs - whole seconds. -/
def Duration.as_secs (d : Duration) : Nat :=
  d.nanos / 1000000000

/-- Duration::subsec_millis - milliseconds of the fractional second part. -/
def Duration.subsec_millis (d : Duration) : Nat :=
  d.nanos % 1000000000 / 1000000

/-- Duration::as_millis - whole milliseconds. -/
def Duration.as_millis (d : Duration) : Nat :=
  d.nanos / 1000000

/-- Zero-padded decimal rendering, the semantics of the Rust format spec 0w
for an unsigned integer: pad the decimal digits with leading zeros up to
width w, never truncating. -/
def fmtZeroPad (w : Nat) (n : Nat) : String :=
  String.mk (List.replicate (w - (Nat.repr n).length) '0') ++ Nat.repr n

/-- Function convert_duration of src/src/subcmd/run.rs lines 455-475. -/
def convert_duration (d : Duration) : String :=
  let seconds := d.as_secs
  let millis := d.subsec_millis
  if seconds < 1 then
    "00:00:00." ++ fmtZeroPad 3 d.as_millis
  else if seconds < 60 then
    "00:00:" ++ fmtZeroPad 2 seconds ++ "." ++ fmtZeroPad 3 millis
  else if seconds < 3600 then
    let minutes := seconds / 60
    let secs := seconds % 60
    "00:" ++ fmtZeroPad 2 minutes ++ ":" ++ fmtZeroPad 2 secs ++ "." ++
      fmtZeroPad 3 millis
  else if seconds < 86400 then
    let total_minutes := seconds / 60
    let secs := seconds % 60
    let hours := total_minutes / 60
    let minutes := total_minutes % 60
    Nat.repr hours ++ ":" ++ fmtZeroPad 2 minutes ++ ":" ++ fmtZeroPad 2 secs ++
      "." ++ fmtZeroPad 3 millis
  else
    Nat.repr seconds ++ "s"

/-- Membership in an IndexSet after one insertion. -/
theorem mem_idxInsert (s : List String) (x y : String) :
    x ∈ idxInsert s y ↔ x ∈ s ∨ x = y := by
  unfold idxInsert
  by_cases h : y ∈ s
  · rw [if_pos h]
    constructor
    · exact Or.inl
    · rintro (hx | rfl)
      · exact hx
      · exact h
  · rw [if_neg h]
    simp

/-- Membership in a foldl of IndexSet insertions. -/
theorem mem_foldl_idxInsert (l : List String) :
    ∀ (acc : List String) (x : String),
      x ∈ l.foldl idxInsert acc ↔ x ∈ acc ∨ x ∈ l := by
  induction l with
  | nil => intro acc x; simp
  | cons a as ih =>
    intro acc x
    rw [List.foldl_cons, ih, mem_idxInsert]
    simp [List.mem_cons]
    tauto

/-- IndexSet::from_iter preserves membership. -/
theorem mem_idxFromIter (l : List String) (x : String) :
    x ∈ idxFromIter l ↔ x ∈ l := by
  unfold idxFromIter
  rw [mem_foldl_idxInsert]
  simp

/-- Membership in a flat_map. -/
theorem mem_flatMapL (f : α → List β) (l : List α) (x : β) :
    x ∈ flatMapL f l ↔ ∃ a, a ∈ l ∧ x ∈ f a := by
  induction l with
  | nil => simp [flatMapL]
  | cons a as ih =>
    simp only [flatMapL, List.mem_append, ih, List.mem_cons]
    constructor
    · rintro (hx | ⟨b, hb, hxb⟩)
      · exact ⟨a, Or.inl rfl, hx⟩
      · exact ⟨b, Or.inr hb, hxb⟩
    · rintro ⟨b, hb | hb, hxb⟩
      · subst hb; exact Or.inl hxb
      · exact Or.inr ⟨b, hb, hxb⟩

/-- Membership in a token expansion. -/
theorem mem_hostnames (cfg : Mussh) (t x : String) :
    x ∈ hostnames cfg t ↔
      ∃ g, cfg.hostlist.lookup t = some g ∧ x ∈ g.hostnames := by
  unfold hostnames
  cases h : cfg.hostlist.lookup t with
  | none => simp
  | some g => simp

/-- Closed form of the pad_left loop. -/
theorem pad_left_go_eq (d : Nat) :
    ∀ (len max : Nat) (res : List Char), max - len = d →
      pad_left_go len max res = res ++ List.replicate d ' ' := by
  induction d with
  | zero =>
    intro len max res h
    unfold pad_left_go
    rw [if_neg (by omega)]
    simp
  | succ n ih =>
    intro len max res h
    unfold pad_left_go
    rw [if_pos (by omega)]
    rw [ih (len + 1) max (res ++ [' ']) (by omega)]
    simp [List.replicate_succ]

/-- Closed form of pad_left: the padding alone, never the input. -/
theorem pad_left_eq (s : List Char) (max : Nat) :
    pad_left s max = List.replicate (max - s.length) ' ' := by
  unfold pad_left
  rw [pad_left_go_eq (max - s.length) s.length max [] rfl]
  simp

/-- Every failed entry of a batch produces exactly one error line. -/
theorem process_batch_length (bs : Batch) :
    (process_batch bs).length = (bs.filter (fun t => !outcomeOk t)).length := by
  induction bs with
  | nil => rfl
  | cons t ts ih =>
    obtain ⟨c, h, res⟩ := t
    cases res with
    | ok u =>
      simpa [process_batch, List.filterMap_cons, List.filter_cons, outcomeOk]
        using ih
    | error e =>
      simpa [process_batch, List.filterMap_cons, List.filter_cons, outcomeOk]
        using ih

/-- The stderr log of a run has one line per failed processed outcome. -/
theorem errorLog_length (r : Run) (batch : String → Batch) :
    (r.errorLog batch).length =
      ((r.producedOutcomes batch).filter (fun t => !outcomeOk t)).length := by
  unfold Run.errorLog Run.producedOutcomes
  generalize r.processedHosts = hs
  induction hs with
  | nil => rfl
  | cons a as ih =>
    simp [flatMapL, List.filter_append, process_batch_length, ih]

/-- Fixture host for the primary selection. -/
def hostA : Host := ⟨"a.example.com", none, none, "jozias", none⟩

/-- Fixture host for the pre (sync-cohort) selection. -/
def hostPre : Host := ⟨"pre.example.com", none, none, "jozias", none⟩

/-- Fixture configuration with singleton hostlist groups a and pre, hosts a
and pre, and one command c. -/
def cfgSync : Mussh :=
  ⟨[("a", ⟨["a"]⟩), ("pre", ⟨["pre"]⟩)],
    [("a", hostA), ("pre", hostPre)],
    [("c", ⟨"echo hi"⟩)]⟩

/-- Fixture invocation: run -c c -h a --group-pre pre --group-cmds c, without
sync and without dry_run (a sync cohort is given). -/
def runSync : Run := ⟨["c"], ["a"], ["c"], ["pre"], [], false, cfgSync, false⟩

/-- Fixture invocation for one async host a with command c. -/
def runA : Run := ⟨["c"], ["a"], [], [], [], false, cfgSync, false⟩

/-- Fixture batch map: the worker of host a reports a failed command c, every
other worker reports an empty batch. -/
def batchFail : String → Batch := fun h =>
  if h = "a" then [("c", ("a", Except.error "ssh cmd failed"))] else []

/-- Fixture hosts m1 and m2. -/
def hostM1 : Host := ⟨"m1.example.com", none, none, "jozias", none⟩

/-- Fixture host m2, configured in the hosts map but in no hostlist group. -/
def hostM2 : Host := ⟨"m2.example.com", none, none, "jozias", none⟩

/-- Fixture configuration: one group all with sole member m1, configured hosts
m1 and m2, one command c. -/
def cfgGroups : Mussh :=
  ⟨[("all", ⟨["m1"]⟩)],
    [("m1", hostM1), ("m2", hostM2)],
    [("c", ⟨"echo hi"⟩)]⟩

/-- Fixture invocation: run -c c -h m2 where m2 is a configured host but not a
group name. -/
def runDirect : Run := ⟨["c"], ["m2"], [], [], [], false, cfgGroups, false⟩

/-- Fixture invocation: run -c c -h all. -/
def runAll : Run := ⟨["c"], ["all"], [], [], [], false, cfgGroups, false⟩

/-- Fixture invocation with unknown host and command tokens:
run -h ghost -c nope. -/
def runGhost : Run := ⟨["nope"], ["ghost"], [], [], [], false, cfgGroups, false⟩

/-- C1: the claim says that with a sync cohort (pre-hosts) given, no host
outside the cohort begins executing before every cohort host has produced its
terminal outcomes (Phase 1 before Phase 2). The code violates this: on the
fixture, Run::multiplex spawns the worker of the non-cohort host a first,
spawns the cohort host pre immediately afterwards, and only then waits once,
so no recv separates the non-cohort spawn from anything - there is no
barrier, although the CLI help of the group-pre flag in the same file
documents one. -/
theorem C1_sync_cohort_bug :
    runSync.pre_hosts = ["pre"] ∧
    runSync.target_hosts = ["a"] ∧
    runSync.multiplexSchedule =
      [MuxEvent.spawn "a", MuxEvent.spawn "pre", MuxEvent.recvWait] ∧
    ¬ syncCohortPriority runSync.multiplexSchedule runSync.pre_hosts := by
  refine ⟨by decide, by decide, by decide, by decide⟩

/-- C2 counterexample: the claim says a token naming no host-group is used as
a direct host name. On the fixture, token m2 names no group, m2 is even a
configured host, yet `hostnames` expands it to the empty list rather than to
m2 itself, and the whole expansion of the selection is empty. -/
theorem C2_counterexample :
    cfgGroups.hostlist.lookup "m2" = none ∧
    hostnames cfgGroups "m2" = [] ∧
    hostnames cfgGroups "m2" ≠ ["m2"] ∧
    runDirect.expanded .HOST = [] := by
  refine ⟨by decide, by decide, by decide, by decide⟩

/-- C2 amended: a host token is resolved only as a host-group name: a token
naming a group contributes the group members in order, and a token naming no
group contributes nothing (it is never used as a direct host name); a name
therefore appears in the expansion of a selection exactly when some token of
the selection names a group containing it. -/
theorem C2_group_only_expansion :
    (∀ (cfg : Mussh) (tok : String),
      hostnames cfg tok =
        ((cfg.hostlist.lookup tok).map Hosts.hostnames).getD []) ∧
    (∀ (r : Run) (ht : HostType) (x : String),
      x ∈ r.expanded ht ↔
        ∃ t, t ∈ r.hostTokens ht ∧
          ∃ g, r.config.hostlist.lookup t = some g ∧ x ∈ g.hostnames) := by
  constructor
  · intro cfg tok
    unfold hostnames
    cases cfg.hostlist.lookup tok <;> rfl
  · intro r ht x
    unfold Run.expanded
    rw [mem_idxFromIter, mem_flatMapL]
    constructor
    · rintro ⟨t, htok, hx⟩
      rw [mem_hostnames] at hx
      obtain ⟨g, hg, hxg⟩ := hx
      exact ⟨t, htok, g, hg, hxg⟩
    · rintro ⟨t, htok, g, hg, hxg⟩
      exact ⟨t, htok, (mem_hostnames r.config t x).mpr ⟨g, hg, hxg⟩⟩

/-- C3 counterexample: the claim says exit code 0 iff every produced outcome
is ok, and 1 on any failure. On the fixture, the worker of host a reports
command c as failed, the multiplexer only logs it and returns Ok(()), so main
exits with 0 - the claimed equivalence is false. -/
theorem C3_counterexample :
    run_exit runA batchFail = 0 ∧
    (runA.producedOutcomes batchFail).all outcomeOk = false ∧
    (runA.errorLog batchFail).length = 1 ∧
    ¬ (run_exit runA batchFail = 0 ↔
        (runA.producedOutcomes batchFail).all outcomeOk = true) := by
  refine ⟨by decide, by decide, by decide, by decide⟩

/-- C3 amended: per-(host, command) failures never reach the exit code: for
every run and every batch assignment, Run::multiplex returns Ok(()) and the
process exits 0, while each failed processed outcome contributes exactly one
stderr log line; exit code 1 arises only from top-level (config or argument)
errors, not from outcomes. -/
theorem C3_exit_code_ignores_outcomes :
    ∀ (r : Run) (batch : String → Batch),
      (r.multiplex batch).2 = Except.ok () ∧
      run_exit r batch = 0 ∧
      (r.errorLog batch).length =
        ((r.producedOutcomes batch).filter (fun t => !outcomeOk t)).length :=
  fun r batch => ⟨rfl, rfl, errorLog_length r batch⟩

/-- C5 counterexample: the claim says an empty selection fails with
SelectionEmpty and exit code 1. On the fixture run -h ghost -c nope (no such
group, no such command) the resolved target set and the matched host map are
empty, zero outcomes are produced - and multiplex returns Ok(()), so the
process exits 0, not 1; no error value is ever constructed. -/
theorem C5_counterexample :
    runGhost.target_hosts = [] ∧
    runGhost.matched_hosts = [] ∧
    runGhost.target_cmds = [] ∧
    runGhost.producedOutcomes batchFail = [] ∧
    (runGhost.multiplex batchFail).2 = Except.ok () ∧
    run_exit runGhost batchFail = 0 ∧
    ¬ run_exit runGhost batchFail = 1 := by
  refine ⟨by decide, by decide, by decide, by decide, rfl, by decide, by decide⟩

/-- C5 amended: when resolution matches no host at all, zero outcomes are
produced and the run completes successfully: Run::multiplex spawns nothing,
returns Ok(()) and the process exits 0 (no SelectionEmpty error exists on
this path). -/
theorem C5_empty_selection_succeeds :
    ∀ (r : Run) (batch : String → Batch), r.matched_hosts = [] →
      r.producedOutcomes batch = [] ∧
      (r.multiplex batch).2 = Except.ok () ∧
      run_exit r batch = 0 := by
  intro r batch h
  have hs : r.spawnedHosts = [] := by
    simp [Run.spawnedHosts, h]
  have hp : r.processedHosts = [] := by
    simp [Run.processedHosts, hs]
  exact ⟨by simp [Run.producedOutcomes, hp, flatMapL], rfl, rfl⟩

/-- C5 witness: the amended statement applied to the ghost fixture. -/
theorem C5_empty_selection_succeeds_witness :
    runGhost.producedOutcomes batchFail = [] ∧
    (runGhost.multiplex batchFail).2 = Except.ok () ∧
    run_exit runGhost batchFail = 0 :=
  C5_empty_selection_succeeds runGhost batchFail (by decide)

/-- C4: the claim says the local executor yields a success outcome iff the
spawned shell process exits 0, with failed outcomes on nonzero exit or failed
spawn. The code violates this: with SHELL set, a child exiting with status 1
is logged to stderr but the function returns Ok(()), and a failed spawn falls
through silently to Ok(()) as well; the evaluation below exhibits both and
refutes the claimed equivalence at exit status 1. -/
theorem C4_localhost_success_bug :
    (execute_on_localhost (some "/bin/sh") (SpawnOutcome.exited [] 1)).result =
      Except.ok () ∧
    (execute_on_localhost (some "/bin/sh") (SpawnOutcome.exited [] 1)).errLogged =
      true ∧
    (execute_on_localhost (some "/bin/sh") SpawnOutcome.spawnFailed).result =
      Except.ok () ∧
    (execute_on_localhost none SpawnOutcome.spawnFailed).result =
      Except.error MusshErrorKind.ShellNotFound ∧
    ¬ ((execute_on_localhost (some "/bin/sh") (SpawnOutcome.exited [] 1)).result =
          Except.ok () ↔ (1 : Int) = 0) :=
  ⟨rfl, rfl, rfl, rfl, fun h => absurd (h.mp rfl) (by decide)⟩

/-- C6 counterexample: the claim says the resolved set is the intersection of
the expanded-minus-excluded hosts with the configured host names, every such
configured host appearing in the plan. On the fixture, m1 is expanded from
group all, not excluded, and configured in the hosts map, yet it is dropped:
Run::configured is the set of hostlist group names, not of host names, and
m1 is warned about as unconfigured and the matched host map is empty. -/
theorem C6_counterexample :
    "m1" ∈ runAll.expanded .HOST ∧
    "m1" ∉ runAll.unwanted .HOST ∧
    "m1" ∈ cfgGroups.hosts.map Prod.fst ∧
    "m1" ∉ runAll.target_hosts ∧
    runAll.warned_hosts = ["m1"] ∧
    runAll.matched_hosts = [] := by
  refine ⟨by decide, by decide, by decide, by decide, by decide, by decide⟩

/-- C6 amended: the final step intersects the expanded-minus-excluded set
with the set of configured hostlist GROUP names (the keys of the hostlist
map, not the host names of the hosts map): a name survives into target_hosts
iff it is expanded, not excluded and a hostlist key; the names failing the
last test are collected into the warned set, reported in a single warning
exactly when that set is nonempty, and no name is both kept and warned. -/
theorem C6_configured_is_hostlist_keys :
    ∀ (r : Run) (x : String),
      (x ∈ r.configured ↔ x ∈ r.config.hostlist.map Prod.fst) ∧
      (x ∈ r.target_hosts ↔
        x ∈ r.expanded .HOST ∧ x ∉ r.unwanted .HOST ∧ x ∈ r.configured) ∧
      (x ∈ r.warned_hosts ↔
        x ∈ r.expanded .HOST ∧ x ∉ r.unwanted .HOST ∧ x ∉ r.configured) ∧
      (x ∈ r.target_hosts → x ∉ r.warned_hosts) ∧
      (r.unconfigured_warning = none ↔ r.warned_hosts = []) := by
  intro r x
  refine ⟨?_, ?_, ?_, ?_, ?_⟩
  · exact mem_idxFromIter _ _
  · simp only [Run.target_hosts, List.mem_filter, decide_eq_true_eq]
    tauto
  · simp only [Run.warned_hosts, List.mem_filter, decide_eq_true_eq]
    tauto
  · intro ht hw
    simp only [Run.target_hosts, List.mem_filter, decide_eq_true_eq] at ht
    simp only [Run.warned_hosts, List.mem_filter, decide_eq_true_eq] at hw
    exact hw.2 ht.2
  · unfold Run.unconfigured_warning
    split <;> simp_all

/-- Closed form of the setup_alias loop: the winner is the first alias in
declaration order that both matches the command name and resolves in the
configured commands. -/
theorem aliasLoop_find (cfg : Mussh) (cmd0 n : String) (l : List CmdAlias) :
    aliasLoop cfg cmd0 n l =
      (match l.find?
          (fun a => a.aliasfor == n && (cfg.cmd.lookup a.command).isSome) with
        | some a => ((cfg.cmd.lookup a.command).map Command.command).getD cmd0
        | none => cmd0) := by
  induction l with
  | nil => rfl
  | cons a rest ih =>
    simp only [aliasLoop, List.find?_cons]
    by_cases haf : a.aliasfor = n
    · cases hlk : cfg.cmd.lookup a.command with
      | some c => simp [haf, hlk]
      | none => simp [haf, hlk, ih]
    · have hb : (a.aliasfor == n) = false := beq_eq_false_iff_ne.mpr haf
      simp only [if_neg haf, hb, Bool.false_and, ih]

/-- Fixture host declaring two aliases for command N: first one pointing at
the unconfigured command A1, second at the configured command A2. -/
def hostAliased : Host :=
  ⟨"m1.example.com", none, none, "jozias", some [⟨"A1", "N"⟩, ⟨"A2", "N"⟩]⟩

/-- Fixture configuration for alias substitution: commands N (string S) and
A2 (string S2); A1 is not configured. -/
def cfgAlias : Mussh := ⟨[], [], [("N", ⟨"S"⟩), ("A2", ⟨"S2"⟩)]⟩

/-- C7 counterexample: the claim says that among multiple alias pairs
matching N, the first in declaration order wins. On the fixture the first
matching pair aliases N to the unconfigured A1, so under the claim the
effective string stays the nominal S; the code skips the unresolvable first
pair, lets the second pair win and produces S2. -/
theorem C7_counterexample :
    (hostAliased.aliasList.getD []).find? (fun a => a.aliasfor == "N") =
      some ⟨"A1", "N"⟩ ∧
    cfgAlias.cmd.lookup "A1" = none ∧
    (setup_alias cfgAlias ⟨"S"⟩ "N" hostAliased).2 = "S2" ∧
    (setup_alias cfgAlias ⟨"S"⟩ "N" hostAliased).2 ≠ "S" := by
  refine ⟨by decide, by decide, by decide, by decide⟩

/-- C7 amended: for host H and command name N with nominal string S, the
effective string is the configured string of the first alias pair in
declaration order whose alias_for equals N AND whose command_name resolves in
the configured commands; if no such pair exists it is S. The substitution is
local to H: it depends only on the alias list of the host it is applied to. -/
theorem C7_first_resolving_alias_wins :
    ∀ (cfg : Mussh) (cmd : Command) (n : String) (host : Host),
      (setup_alias cfg cmd n host).1 = n ∧
      (setup_alias cfg cmd n host).2 =
        (match (host.aliasList.getD []).find?
            (fun a => a.aliasfor == n && (cfg.cmd.lookup a.command).isSome) with
          | some a => ((cfg.cmd.lookup a.command).map Command.command).getD cmd.command
          | none => cmd.command) ∧
      (∀ h2 : Host, h2.aliasList = host.aliasList →
        setup_alias cfg cmd n h2 = setup_alias cfg cmd n host) := by
  intro cfg cmd n host
  refine ⟨rfl, ?_, ?_⟩
  · cases hal : host.aliasList with
    | none => simp [setup_alias, hal]
    | some l => simp [setup_alias, hal, aliasLoop_find]
  · intro h2 h
    unfold setup_alias
    rw [h]

/-- C7 witness: the amended statement evaluated on the alias fixture,
discharging the locality hypothesis with the host itself. -/
theorem C7_first_resolving_alias_wins_witness :
    (setup_alias cfgAlias ⟨"S"⟩ "N" hostAliased).1 = "N" ∧
    setup_alias cfgAlias ⟨"S"⟩ "N" hostAliased =
      setup_alias cfgAlias ⟨"S"⟩ "N" hostAliased :=
  ⟨(C7_first_resolving_alias_wins cfgAlias ⟨"S"⟩ "N" hostAliased).1,
    (C7_first_resolving_alias_wins cfgAlias ⟨"S"⟩ "N" hostAliased).2.2
      hostAliased rfl⟩

/-- C8: the per-host log sink is total: FileDrain::log returns Ok(()) for
every combination of try_clone and write success (its error type Never has no
value, so a logging failure can never abort a worker); a successfully written
record is the single line of the RFC 3339 timestamp, a colon-space separator
and the raw message, and on a failing try_clone or a failing write the record
is dropped while the sink still reports success. -/
theorem C8_filedrain_total :
    ∀ (tryCloneOk writeOk : Bool) (ts msg : String),
      (FileDrain.log tryCloneOk writeOk ts msg).2 = Except.ok () ∧
      (FileDrain.log tryCloneOk writeOk ts msg).1 =
        (if tryCloneOk && writeOk then some (ts ++ ": " ++ msg ++ "\n")
          else none) ∧
      (FileDrain.log tryCloneOk false ts msg).1 = none ∧
      (FileDrain.log false writeOk ts msg).1 = none := by
  intro tc w ts msg
  refine ⟨rfl, rfl, by simp [FileDrain.log], by simp [FileDrain.log]⟩

/-- C9 counterexample: the claim says the returned string never contains the
input. For the one-space input and bound 2 the function returns a single
space, which is exactly the input, so the returned string does contain it. -/
theorem C9_counterexample :
    pad_left [' '] 2 = [' '] ∧ List.IsInfix [' '] (pad_left [' '] 2) := by
  constructor
  · rw [pad_left_eq]
    rfl
  · refine ⟨[], [], ?_⟩
    rw [pad_left_eq]
    rfl

/-- C9 amended: for a string of fewer than max characters pad_left returns
exactly max minus length spaces, otherwise the empty string; the result
consists of spaces only, so it never contains the input unless the input
itself consists solely of spaces (in particular never when the input has a
character other than a space). -/
theorem C9_pad_left_padding_only :
    ∀ (s : List Char) (max : Nat),
      (s.length < max → pad_left s max = List.replicate (max - s.length) ' ') ∧
      (max ≤ s.length → pad_left s max = []) ∧
      (∀ c ∈ pad_left s max, c = ' ') ∧
      (∀ c ∈ s, c ≠ ' ' → ¬ List.IsInfix s (pad_left s max)) := by
  intro s max
  refine ⟨fun _ => pad_left_eq s max, fun h => ?_, fun c hc => ?_, ?_⟩
  · rw [pad_left_eq, Nat.sub_eq_zero_of_le h]
    rfl
  · rw [pad_left_eq] at hc
    exact List.eq_of_mem_replicate hc
  · intro c hcs hne hinf
    have hmem := hinf.subset hcs
    rw [pad_left_eq] at hmem
    exact hne (List.eq_of_mem_replicate hmem)

/-- C9 witness: the amended statement evaluated at input a with bound 3. -/
theorem C9_pad_left_padding_only_witness :
    pad_left [Char.ofNat 97] 3 = List.replicate 2 ' ' ∧
    ¬ List.IsInfix [Char.ofNat 97] (pad_left [Char.ofNat 97] 3) :=
  ⟨(C9_pad_left_padding_only [Char.ofNat 97] 3).1 (by decide),
    (C9_pad_left_padding_only [Char.ofNat 97] 3).2.2.2 (Char.ofNat 97)
      (by decide) (by decide)⟩

/-- C10: convert_duration partitions by whole seconds exactly as claimed:
below one second it renders 00:00:00. plus the 3-digit zero-padded
milliseconds, from 1 to 59 seconds 00:00:SS.mmm, from 60 to 3599 seconds
00:MM:SS.mmm, from 3600 to 86399 seconds H:MM:SS.mmm with unpadded hours and
2-digit zero-padded minutes and seconds, and at 86400 seconds or more the
total seconds followed by s with no millisecond component. -/
theorem C10_convert_duration_partition :
    ∀ d : Duration,
      (d.as_secs < 1 →
        convert_duration d = "00:00:00." ++ fmtZeroPad 3 d.subsec_millis) ∧
      (1 ≤ d.as_secs → d.as_secs < 60 →
        convert_duration d =
          "00:00:" ++ fmtZeroPad 2 d.as_secs ++ "." ++
            fmtZeroPad 3 d.subsec_millis) ∧
      (60 ≤ d.as_secs → d.as_secs < 3600 →
        convert_duration d =
          "00:" ++ fmtZeroPad 2 (d.as_secs / 60) ++ ":" ++
            fmtZeroPad 2 (d.as_secs % 60) ++ "." ++
            fmtZeroPad 3 d.subsec_millis) ∧
      (3600 ≤ d.as_secs → d.as_secs < 86400 →
        convert_duration d =
          Nat.repr (d.as_secs / 3600) ++ ":" ++
            fmtZeroPad 2 (d.as_secs / 60 % 60) ++ ":" ++
            fmtZeroPad 2 (d.as_secs % 60) ++ "." ++
            fmtZeroPad 3 d.subsec_millis) ∧
      (86400 ≤ d.as_secs → convert_duration d = Nat.repr d.as_secs ++ "s") := by
  intro d
  refine ⟨?_, ?_, ?_, ?_, ?_⟩
  · intro h1
    simp only [convert_duration]
    rw [if_pos h1]
    have hm : d.as_millis = d.subsec_millis := by
      unfold Duration.as_millis Duration.subsec_millis
      unfold Duration.as_secs at h1
      omega
    rw [hm]
  · intro h1 h2
    simp only [convert_duration]
    rw [if_neg (by omega), if_pos h2]
  · intro h1 h2
    simp only [convert_duration]
    rw [if_neg (by omega), if_neg (by omega), if_pos h2]
  · intro h1 h2
    simp only [convert_duration]
    rw [if_neg (by omega), if_neg (by omega), if_neg (by omega), if_pos h2]
    have hh : d.as_secs / 60 / 60 = d.as_secs / 3600 := by omega
    rw [hh]
  · intro h1
    simp only [convert_duration]
    rw [if_neg (by omega), if_neg (by omega), if_neg (by omega),
      if_neg (by omega)]

/-- C10 witness: the first branch of the partition at 876 milliseconds, the
value of the conversions unit test of src/src/subcmd/run.rs. -/
theorem C10_convert_duration_partition_witness :
    convert_duration ⟨876000000⟩ =
      "00:00:00." ++ fmtZeroPad 3 (Duration.subsec_millis ⟨876000000⟩) :=
  (C10_convert_duration_partition ⟨876000000⟩).1 (by decide)
